import Mathlib

/-!
# Shallow embedding of `clap-validator` (subset under verification)

This file embeds, in Lean 4, the parts of the `clap-validator` sources that
the verified claims are about:

* `src/plugin/audio_thread/process.rs` — `ProcessData`, `AudioBuffers`,
  `OutOfPlaceAudioBuffers` and their operations;
* `src/tests/plugin/params.rs` — the three parameter tests
  (`test_convert_params`, `test_random_fuzz_params`,
  `test_wrong_namespace_set_params`);
* `src/main.rs` — the CLI dispatch.

Modelling conventions:

* Rust `u32`/`u16` become `Nat` with explicit `% 2^32` where the source can
  overflow; `i64` fixed-point positions become `Int`.
* `f64` values that the source only moves around and compares bit-for-bit
  (parameter values, sample data) are modelled as opaque values with decidable
  equality (`Int`); `f64` arithmetic in `advance_transport` is modelled by
  exact rational arithmetic (`ℚ`) with `round`.
* Raw channel pointers (`*const f32`) are modelled by the base address of the
  channel vector, an opaque `Nat`: two distinct vectors have distinct
  addresses, and `Vec::as_ptr` returns the address.
* Fallible Rust code (`anyhow::Result`) becomes `Except String`.
* External collaborators that live outside the three source files (the plugin
  being validated, the `Params` extension wrapper, the host, the PRNG) are
  oracles: explicit function-valued parameters of the embedded tests.
-/

/-- A `Vec<f32>` audio channel: its base address (the model of `as_ptr()`)
and its length (`len()`). Sample contents never influence the control flow
of the embedded code, so they are not modelled. -/
structure FChan where
  addr : Nat
  len : Nat
deriving Repr, DecidableEq

/-- `OutOfPlaceAudioBuffers` from `process.rs`: borrowed input and output
storage plus the channel-pointer tables built at construction, all indexed
`[port_idx][channel_idx]`. -/
structure OutOfPlaceAudioBuffers where
  inputs : List (List FChan)
  outputs : List (List FChan)
  input_channel_pointers : List (List Nat)
  output_channel_pointers : List (List Nat)
  num_samples : Nat
deriving Repr, DecidableEq

namespace OutOfPlaceAudioBuffers

/-- The sample-count scan of `OutOfPlaceAudioBuffers::new`: fold over the
flattened channel vectors, carrying `Option Nat` (`num_samples` in the
source), bailing out on the first mismatch. -/
def checkSampleCounts : List FChan → Option Nat → Except String (Option Nat)
  | [], acc => .ok acc
  | c :: rest, acc =>
    match acc with
    | some n =>
      if c.len ≠ n then
        .error "Inconsistent sample counts in audio buffers."
      else
        checkSampleCounts rest (some n)
    | none => checkSampleCounts rest (some c.len)

/-- `OutOfPlaceAudioBuffers::new`: checks that every channel vector across
inputs and outputs has the same length, then builds both channel-pointer
tables and records `num_samples` (`0` when there are no channels at all). -/
def new (inputs : List (List FChan)) (outputs : List (List FChan)) :
    Except String OutOfPlaceAudioBuffers := do
  let acc ← checkSampleCounts ((inputs ++ outputs).flatten) none
  .ok
    { inputs := inputs
      outputs := outputs
      input_channel_pointers := inputs.map (fun port => port.map FChan.addr)
      output_channel_pointers := outputs.map (fun port => port.map FChan.addr)
      num_samples := acc.getD 0 }

/-- `OutOfPlaceAudioBuffers::len()`. -/
def lenFn (b : OutOfPlaceAudioBuffers) : Nat :=
  b.num_samples

/-- `OutOfPlaceAudioBuffers::input_channel_pointers()`: returns the stored
input channel-pointer table. -/
def input_channel_pointersFn (b : OutOfPlaceAudioBuffers) : List (List Nat) :=
  b.input_channel_pointers

/-- `OutOfPlaceAudioBuffers::output_channel_pointers()` exactly as written in
the source (process.rs lines 185–188): despite its name and documentation it
returns `self.input_channel_pointers`. -/
def output_channel_pointersFn (b : OutOfPlaceAudioBuffers) : List (List Nat) :=
  b.input_channel_pointers

end OutOfPlaceAudioBuffers

/-- `AudioBuffers` from `process.rs`: currently only out-of-place processing. -/
inductive AudioBuffers where
  | OutOfPlace (b : OutOfPlaceAudioBuffers)
deriving Repr, DecidableEq

/-! ## Transport and `ProcessData` (`process.rs`)

Fixed-point factors from `clap_sys::fixedpoint` (ABI givens):
`CLAP_BEATTIME_FACTOR = 1 << 31`, `CLAP_SECTIME_FACTOR = 1 << 31`. -/

def CLAP_BEATTIME_FACTOR : Int := 2 ^ 31

def CLAP_SECTIME_FACTOR : Int := 2 ^ 31

def CLAP_CORE_EVENT_SPACE_ID : Nat := 0

def CLAP_EVENT_PARAM_VALUE : Nat := 5

def CLAP_EVENT_TRANSPORT : Nat := 9

def CLAP_TRANSPORT_HAS_TEMPO : Nat := 1

def CLAP_TRANSPORT_HAS_BEATS_TIMELINE : Nat := 2

def CLAP_TRANSPORT_HAS_SECONDS_TIMELINE : Nat := 4

def CLAP_TRANSPORT_HAS_TIME_SIGNATURE : Nat := 8

def CLAP_TRANSPORT_IS_PLAYING : Nat := 16

/-- `clap_event_header` (ABI given). The `size` byte count is memory layout
and is not modelled. -/
structure clap_event_header where
  time : Nat
  space_id : Nat
  type_ : Nat
  flags : Nat
deriving Repr, DecidableEq

/-- `clap_event_transport` (ABI given). `f64` tempo fields are modelled as
exact rationals; fixed-point positions are `Int` (`i64`). -/
structure clap_event_transport where
  header : clap_event_header
  flags : Nat
  song_pos_beats : Int
  song_pos_seconds : Int
  tempo : ℚ
  tempo_inc : ℚ
  loop_start_beats : Int
  loop_end_beats : Int
  loop_start_seconds : Int
  loop_end_seconds : Int
  bar_start : Int
  bar_number : Int
  tsig_num : Nat
  tsig_denom : Nat
deriving Repr, DecidableEq

/-- `ProcessData` from `process.rs`: buffers, transport information, the
current sample position (`u32`) and the sample rate (`f64`, modelled
rationally). -/
structure ProcessData where
  buffers : AudioBuffers
  transport_info : clap_event_transport
  sample_pos : Nat
  sample_rate : ℚ
deriving Repr, DecidableEq

namespace ProcessData

/-- `ProcessData::new`: transport starts at the beginning of the project with
the five `HAS_*`/`IS_PLAYING` flags set. The source casts the `f32` tempo to
`f64`; both are modelled as the same rational. -/
def new (buffers : AudioBuffers) (sample_rate : ℚ) (tempo : ℚ)
    (time_sig_numerator : Nat) (time_sig_denominator : Nat) : ProcessData :=
  { buffers := buffers
    transport_info :=
      { header :=
          { time := 0
            space_id := CLAP_CORE_EVENT_SPACE_ID
            type_ := CLAP_EVENT_TRANSPORT
            flags := 0 }
        flags := CLAP_TRANSPORT_HAS_TEMPO ||| CLAP_TRANSPORT_HAS_BEATS_TIMELINE |||
          CLAP_TRANSPORT_HAS_SECONDS_TIMELINE ||| CLAP_TRANSPORT_HAS_TIME_SIGNATURE |||
          CLAP_TRANSPORT_IS_PLAYING
        song_pos_beats := 0
        song_pos_seconds := 0
        tempo := tempo
        tempo_inc := 0
        loop_start_beats := 0
        loop_end_beats := 0
        loop_start_seconds := 0
        loop_end_seconds := 0
        bar_start := 0
        bar_number := 0
        tsig_num := time_sig_numerator
        tsig_denom := time_sig_denominator }
    sample_pos := 0
    sample_rate := sample_rate }

/-- `ProcessData::transport_info()`. -/
def transport_infoFn (d : ProcessData) : clap_event_transport :=
  d.transport_info

/-- `ProcessData::advance_transport`: `self.sample_pos += samples` on a `u32`
(wrapping modelled with `% 2^32`), then both fixed-point song positions are
recomputed from the absolute sample position. -/
def advance_transport (d : ProcessData) (samples : Nat) : ProcessData :=
  let pos : Nat := (d.sample_pos + samples) % 2 ^ 32
  { d with
    sample_pos := pos
    transport_info :=
      { d.transport_info with
        song_pos_beats :=
          round (((pos : ℚ) / d.sample_rate / 60 * d.transport_info.tempo) *
            (CLAP_BEATTIME_FACTOR : ℚ))
        song_pos_seconds :=
          round (((pos : ℚ) / d.sample_rate) * (CLAP_SECTIME_FACTOR : ℚ)) } }

end ProcessData

/-! ## Events and external collaborators of the parameter tests

`Event`, `TestStatus`, the `Params`/`AudioPorts`/`NotePorts` extension
wrappers, the `Host`, the PRNG and the `ParamFuzzer` live outside the three
source files; they are modelled as oracles (record-valued parameters) or,
where the tests' claims depend on their behaviour, from the spec. -/

/-- `clap_event_param_value` (ABI given). The `cookie`, `port_index`,
`channel`, `key` and `note_id` wildcard fields never influence the embedded
control flow and are not modelled; the `f64` value is an opaque `Int`. -/
structure clap_event_param_value where
  header : clap_event_header
  param_id : Nat
  value : Int
deriving Repr, DecidableEq

/-- The `Event` enum from `instance/process.rs` (not under `src/`), reduced
to the variants the parameter tests can observe: `ParamValue` plus a stand-in
for all note-shaped variants, of which only the header time matters to the
driver. -/
inductive Event where
  | ParamValue (e : clap_event_param_value)
  | Note (time : Nat)
deriving Repr, DecidableEq

/-- The `time_in_samples` of an event's header. -/
def Event.time : Event → Nat
  | .ParamValue e => e.header.time
  | .Note t => t

/-- The namespace (`space_id`) of an event's header; note-shaped events are
always in the core namespace in this model. -/
def Event.space_id : Event → Nat
  | .ParamValue e => e.header.space_id
  | .Note _ => CLAP_CORE_EVENT_SPACE_ID

/-- `TestStatus` from `tests.rs` (not under `src/`). Modelled from the spec:
the structured result schema has statuses success, failed, skipped, crashed
and timed-out, each with an optional details string. -/
inductive TestStatus where
  | Success (details : Option String)
  | Failed (details : Option String)
  | Skipped (details : Option String)
  | Crashed (details : Option String)
  | TimedOut (details : Option String)
deriving Repr, DecidableEq

/-- The seeded deterministic PRNG (`crate::tests::rng::new_prng`, not under
`src/`). Modelled as the stream of values the generator will produce: each
draw consumes the head of the stream. -/
def Prng : Type := List Int

/-- `rand::Rng::gen_range` over an inclusive range, modelled as consuming the
next stream value clamped into the range (the real generator always returns a
value inside the range). -/
def Prng.gen_range (s : Prng) (lo hi : Int) : Int × Prng :=
  (max lo (min hi (List.headD s lo)), List.tail s)

/-- Parameter descriptor as used by the tests: display name and value range
(`*param_info.range.start()`, `*param_info.range.end()`). -/
structure ParamInfo where
  name : String
  range_start : Int
  range_end : Int
deriving Repr, DecidableEq

/-- Oracle for the `Params` extension wrapper (`ext/params.rs`, not under
`src/`): the plugin-provided conversions and parameter reads, as the fallible
calls the tests make. `get` reads from the plugin's processing state `σ`. -/
structure ParamsExt (σ : Type) where
  info : Except String (List (Nat × ParamInfo))
  value_to_text : Nat → Int → Except String (Option String)
  text_to_value : Nat → String → Except String (Option Int)
  get : σ → Nat → Except String Int

/-- Audio-port configuration: channel counts per input and output port. -/
structure AudioPortConfig where
  inputs : List Nat
  outputs : List Nat
deriving Repr, DecidableEq

/-- The `Default` impl used by `AudioPortConfig::default()`: no ports. -/
def AudioPortConfig.default : AudioPortConfig :=
  { inputs := [], outputs := [] }

/-- Allocate the channel vectors for one direction: each port's channels are
fresh zeroed vectors of `blockSize` samples at distinct addresses counted
from `base`. -/
def mkPortBuffers : List Nat → Nat → Nat → List (List FChan)
  | [], _, _ => []
  | c :: rest, blockSize, base =>
    ((List.range c).map fun j => FChan.mk (base + j) blockSize) ::
      mkPortBuffers rest blockSize (base + c)

/-- Modelled from the spec: `AudioPortConfig::create_buffers` (in
`ext/audio_ports.rs`, not under `src/`) allocates zeroed input and output
storage with the configured channel counts and `blockSize` samples per
channel. -/
def AudioPortConfig.create_buffers (cfg : AudioPortConfig) (blockSize : Nat) :
    List (List FChan) × List (List FChan) :=
  (mkPortBuffers cfg.inputs blockSize 0,
    mkPortBuffers cfg.outputs blockSize cfg.inputs.sum)

/-- Oracle for the `AudioPorts` extension wrapper (not under `src/`). -/
structure AudioPortsExt where
  config : Except String AudioPortConfig

/-- Oracle for the `NotePorts` extension wrapper (not under `src/`); the
tests only use the configuration to seed a note generator, so the
configuration itself is opaque here. -/
structure NotePortsExt where
  config : Except String Unit

/-- Oracle for one plugin instance: the outcome of `init()`, the extensions
it advertises, its initial processing state, and its `process()` behaviour as
a function from state and sorted input events to a new state. -/
structure Plugin (σ : Type) where
  init : Except String Unit
  params : Option (ParamsExt σ)
  audio_ports : Option AudioPortsExt
  note_ports : Option NotePortsExt
  initial_state : σ
  process : σ → List Event → Except String σ

/-- Oracle for `PluginLibrary::create_plugin` (the library, plugin id and
host handle of the source call are fixed by the surrounding test). -/
structure PluginLibrary (σ : Type) where
  create_plugin : Except String (Plugin σ)

/-- Oracle for the `Host`: the three tests only observe the outcome of
`thread_safety_check()`; `handle_callbacks_once()` has no observable effect
in this model. -/
structure HostModel where
  thread_safety_check : Except String Unit

/-- Modelled from the spec: `ParamFuzzer::randomize_params_at`
(`crate::tests::rng`, not under `src/`) emits one `ParamValue` event per
known parameter at the given time, in the core event namespace, with a
PRNG-drawn value in the parameter's range. -/
def ParamFuzzer.randomize_params_at :
    List (Nat × ParamInfo) → Prng → Nat → List Event × Prng
  | [], prng, _ => ([], prng)
  | (pid, info) :: rest, prng, time =>
    let draw := prng.gen_range info.range_start info.range_end
    let tail_result := ParamFuzzer.randomize_params_at rest draw.2 time
    (Event.ParamValue
        { header :=
            { time := time
              space_id := CLAP_CORE_EVENT_SPACE_ID
              type_ := CLAP_EVENT_PARAM_VALUE
              flags := 0 }
          param_id := pid
          value := draw.1 } :: tail_result.1,
      tail_result.2)

/-! ## The processing-test driver (modelled from the spec, §4.8)

`ProcessingTest` lives in `src/tests/plugin/processing.rs`, which is not
under `src/`. Per the spec, `run(n_blocks, config, setup)` runs, for each
block: reset the input event queue, invoke the `setup` closure, **sort** the
input queue by `time_in_samples` (stable), call `process`, and advance the
transport by the block size. The closure may carry its own mutable state
across blocks (it is a Rust `FnMut`), modelled by an explicit state `C`. -/

/-- The stable sort of the input event queue by `time_in_samples`
(spec §4.3: "stable sort by time_in_samples"). -/
def sortEvents (q : List Event) : List Event :=
  List.insertionSort (fun a b => Event.time a ≤ Event.time b) q

/-- What the driver hands to one `process()` call: the sorted input event
queue and the block size it advances the transport by. -/
structure BlockRecord where
  events : List Event
  block_size : Nat
deriving Repr, DecidableEq

/-- Modelled from the spec: `ProcessingTest::new_out_of_place` wraps the
borrowed storage in `OutOfPlaceAudioBuffers::new`, propagating its error. -/
def ProcessingTest.new_out_of_place (inputs outputs : List (List FChan)) :
    Except String OutOfPlaceAudioBuffers :=
  OutOfPlaceAudioBuffers.new inputs outputs

/-- Modelled from the spec: the per-block loop of `ProcessingTest::run`.
Returns the final plugin state, the final closure state, and the record of
what each `process()` call received, in block order. -/
def ProcessingTest.run {σ C : Type} (plugin : Plugin σ) (block_size : Nat)
    (setup : C → List Event → Except String (C × List Event)) :
    Nat → σ → C → Except String (σ × C × List BlockRecord)
  | 0, st, c => .ok (st, c, [])
  | n + 1, st, c => do
    let setup_result ← setup c []
    let q := sortEvents setup_result.2
    let st' ← plugin.process st q
    let rest ← ProcessingTest.run plugin block_size setup n st' setup_result.1
    .ok (rest.1, rest.2.1, BlockRecord.mk q block_size :: rest.2.2)

/-- Modelled from the spec: `ProcessingTest::run_once` is `run` with a single
block. -/
def ProcessingTest.run_once {σ C : Type} (plugin : Plugin σ) (block_size : Nat)
    (setup : C → List Event → Except String (C × List Event)) (st : σ) (c : C) :
    Except String (σ × C × List BlockRecord) :=
  ProcessingTest.run plugin block_size setup 1 st c

/-! ## The parameter tests (`src/tests/plugin/params.rs`) -/

/-- `BUFFER_SIZE` from `params.rs`. -/
def BUFFER_SIZE : Nat := 512

/-- `FUZZ_NUM_PERMUTATIONS` from `params.rs`. -/
def FUZZ_NUM_PERMUTATIONS : Nat := 50

/-- `FUZZ_RUNS_PER_PERMUTATION` from `params.rs`. -/
def FUZZ_RUNS_PER_PERMUTATION : Nat := 5

/-- `VALUES_PER_PARAM` from `test_convert_params`. -/
def VALUES_PER_PARAM : Nat := 6

/-- The mutable locals of `test_convert_params`'s conversion loop: the two
support counters and the two lists of failed conversions kept for error
reporting. -/
structure ConvertState where
  num_supported_value_to_text : Nat
  num_supported_text_to_value : Nat
  failed_value_to_text_calls : List (String × Int)
  failed_text_to_value_calls : List (String × String)
deriving Repr, DecidableEq

/-- The initial `ConvertState`: both counters zero, no failures recorded. -/
def ConvertState.initial : ConvertState :=
  { num_supported_value_to_text := 0
    num_supported_text_to_value := 0
    failed_value_to_text_calls := []
    failed_text_to_value_calls := [] }

/-- The `'value_loop` of `test_convert_params` for one parameter
(params.rs lines 77–137). A `value_to_text` miss records the failure and
abandons the rest of this parameter's values (`continue 'param_loop`); a
`text_to_value` miss records the failure and moves to the next value
(`continue 'value_loop`); a miss or mismatch on the two reconversion hops is
an error (`anyhow::bail!`). -/
def convert_values {σ : Type} (params : ParamsExt σ) (param_id : Nat)
    (param_name : String) : List Int → ConvertState → Except String ConvertState
  | [], st => .ok st
  | starting_value :: rest, st => do
    let starting_text? ← params.value_to_text param_id starting_value
    match starting_text? with
    | none =>
      .ok { st with
        failed_value_to_text_calls :=
          st.failed_value_to_text_calls ++ [(param_name, starting_value)] }
    | some starting_text =>
      let st := { st with
        num_supported_value_to_text := st.num_supported_value_to_text + 1 }
      do
        let reconverted_value? ← params.text_to_value param_id starting_text
        match reconverted_value? with
        | none =>
          convert_values params param_id param_name rest
            { st with
              failed_text_to_value_calls :=
                st.failed_text_to_value_calls ++ [(param_name, starting_text)] }
        | some reconverted_value =>
          let st := { st with
            num_supported_text_to_value := st.num_supported_text_to_value + 1 }
          do
            let reconverted_text? ← params.value_to_text param_id reconverted_value
            match reconverted_text? with
            | none => .error "Failure in repeated value to text conversion"
            | some reconverted_text =>
              if starting_text ≠ reconverted_text then
                .error "Converting to a string, back to a value, and then back to a string again is not consistent."
              else do
                let final_value? ← params.text_to_value param_id reconverted_text
                match final_value? with
                | none => .error "Failure in repeated text to value conversion"
                | some final_value =>
                  if final_value ≠ reconverted_value then
                    .error "Converting to a string, back to a value, back to a string, and then back to a value again is not consistent."
                  else
                    convert_values params param_id param_name rest st

/-- The `'param_loop` of `test_convert_params`: for each parameter, build the
six sampled values (range start, range end, and four PRNG draws from the
range) and run the value loop. -/
def convert_param_loop {σ : Type} (params : ParamsExt σ) :
    List (Nat × ParamInfo) → Prng → ConvertState → Except String ConvertState
  | [], _, st => .ok st
  | (param_id, param_info) :: rest, prng, st =>
    let (v1, prng1) := prng.gen_range param_info.range_start param_info.range_end
    let (v2, prng2) := prng1.gen_range param_info.range_start param_info.range_end
    let (v3, prng3) := prng2.gen_range param_info.range_start param_info.range_end
    let (v4, prng4) := prng3.gen_range param_info.range_start param_info.range_end
    let values : List Int :=
      [param_info.range_start, param_info.range_end, v1, v2, v3, v4]
    do
      let st' ← convert_values params param_id param_info.name values st
      convert_param_loop params rest prng4 st'

/-- `test_convert_params` (params.rs lines 28–169): create and initialize the
plugin, skip if `params` is unsupported, fetch the parameter list, run the
conversion loop, enforce the all-or-nothing support policy (a violation is an
error), run the thread-safety check, and finally report `Skipped` when either
conversion direction was never supported, `Success` otherwise. -/
def test_convert_params {σ : Type} (library : PluginLibrary σ) (host : HostModel)
    (prng : Prng) : Except String TestStatus := do
  let plugin ← library.create_plugin
  let _ ← plugin.init
  match plugin.params with
  | none =>
    .ok (TestStatus.Skipped
      (some "The plugin does not support the 'params' extension."))
  | some params => do
    let param_infos ← params.info
    let expected_conversions := param_infos.length * VALUES_PER_PARAM
    let st ← convert_param_loop params param_infos prng ConvertState.initial
    if ¬(st.num_supported_value_to_text = 0 ∨
        st.num_supported_value_to_text = expected_conversions) then
      .error "value_to_text returned true for only part of the calls. This function is expected to be supported for either none of the parameters or for all of them."
    else if ¬(st.num_supported_text_to_value = 0 ∨
        st.num_supported_text_to_value = expected_conversions) then
      .error "text_to_value returned true for only part of the calls. This function is expected to be supported for either none of the parameters or for all of them."
    else do
      let _ ← host.thread_safety_check
      if st.num_supported_value_to_text = 0 ∨ st.num_supported_text_to_value = 0 then
        .ok (TestStatus.Skipped
          (some "The plugin's parameters need to support both value to text and text to value conversions for this test."))
      else
        .ok (TestStatus.Success none)

/-- The per-block closure of `test_random_fuzz_params` (params.rs lines
226–244). Its captured mutable state is `random_param_set_events : Option _`
(taken — and so injected into the driver's freshly reset queue — on the first
block only) together with the threaded PRNG. When the plugin has note ports,
`NoteGenerator::fill_event_queue` adds randomized note events (an oracle
here); `buffers.randomize` only touches sample contents, which are not
modelled. -/
def fuzz_setup
    (note_fill : Option (Prng → List Event → Nat → Except String (List Event × Prng))) :
    Option (List Event) × Prng → List Event →
      Except String ((Option (List Event) × Prng) × List Event) :=
  fun c q =>
    let q := match c.1 with
      | some random_param_set_events => random_param_set_events
      | none => q
    match note_fill with
    | some nf => do
      let (q', prng') ← nf c.2 q BUFFER_SIZE
      .ok ((none, prng'), q')
    | none => .ok ((none, c.2), q)

/-- The permutation loop of `test_random_fuzz_params` (params.rs lines
216–246): each permutation draws fresh `ParamValue` events at time 0, wraps
the shared storage in out-of-place buffers, and runs
`FUZZ_RUNS_PER_PERMUTATION` blocks. Returns the per-permutation,
per-block records of what `process()` received. -/
def fuzz_permutation_loop {σ : Type} (plugin : Plugin σ)
    (param_infos : List (Nat × ParamInfo)) (inputs outputs : List (List FChan))
    (note_fill : Option (Prng → List Event → Nat → Except String (List Event × Prng))) :
    Nat → Prng → σ → Except String (σ × Prng × List (List BlockRecord))
  | 0, prng, st => .ok (st, prng, [])
  | n + 1, prng, st => do
    let fuzz_result := ParamFuzzer.randomize_params_at param_infos prng 0
    let buffers ← ProcessingTest.new_out_of_place inputs outputs
    let run_result ← ProcessingTest.run plugin buffers.lenFn
      (fuzz_setup note_fill) FUZZ_RUNS_PER_PERMUTATION st
      (some fuzz_result.1, fuzz_result.2)
    let rest ← fuzz_permutation_loop plugin param_infos inputs outputs
      note_fill n run_result.2.1.2 run_result.1
    .ok (rest.1, rest.2.1, run_result.2.2 :: rest.2.2)

/-- `test_random_fuzz_params` (params.rs lines 172–253): create and
initialize the plugin, look up the optional `audio-ports`/`note-ports`
extensions, skip if `params` is unsupported, fetch the configurations and
parameters, allocate `BUFFER_SIZE`-sample buffers, run
`FUZZ_NUM_PERMUTATIONS` permutations, then the thread-safety check. The
second component of the result is the driver's record of every block, kept
for specification purposes. -/
def test_random_fuzz_params {σ : Type} (library : PluginLibrary σ)
    (host : HostModel) (prng : Prng)
    (note_fill : Option (Prng → List Event → Nat → Except String (List Event × Prng))) :
    Except String (TestStatus × List (List BlockRecord)) := do
  let plugin ← library.create_plugin
  let _ ← plugin.init
  let audio_ports := plugin.audio_ports
  let note_ports := plugin.note_ports
  match plugin.params with
  | none =>
    .ok (TestStatus.Skipped
      (some "The plugin does not support the 'params' extension."), [])
  | some params => do
    let audio_ports_config ← match audio_ports with
      | some ap => do
        let c ← ap.config
        .ok (some c)
      | none => .ok none
    let _note_ports_config ← match note_ports with
      | some np => do
        let c ← np.config
        .ok (some c)
      | none => .ok (none : Option Unit)
    let param_infos ← params.info
    let bufs :=
      (audio_ports_config.getD AudioPortConfig.default).create_buffers BUFFER_SIZE
    let note_event_rng := match note_ports with
      | some _ => note_fill
      | none => none
    let loop_result ← fuzz_permutation_loop plugin param_infos bufs.1
      bufs.2 note_event_rng FUZZ_NUM_PERMUTATIONS prng plugin.initial_state
    let _ ← host.thread_safety_check
    .ok (TestStatus.Success none, loop_result.2.2)

/-- `INCORRECT_NAMESPACE_ID` from `test_wrong_namespace_set_params`. -/
def INCORRECT_NAMESPACE_ID : Nat := 0xb33f

/-- The event rewrite loop of `test_wrong_namespace_set_params` (params.rs
lines 300–305): stamp `INCORRECT_NAMESPACE_ID` into every `ParamValue`
event's header; any other event is a validator bug (a Rust abort, modelled as
an error). -/
def overrideNamespace : List Event → Except String (List Event)
  | [] => .ok []
  | Event.ParamValue e :: rest => do
    let rest' ← overrideNamespace rest
    .ok (Event.ParamValue
      { e with header := { e.header with space_id := INCORRECT_NAMESPACE_ID } } :: rest')
  | Event.Note _ :: _ => .error "Unexpected event, this is a clap-validator bug"

/-- The `audio-ports` lookup of `test_wrong_namespace_set_params` (params.rs
lines 268–273): the extension's configuration when advertised, the default
empty configuration otherwise. -/
def audioPortsConfigOf {σ : Type} (plugin : Plugin σ) : Except String AudioPortConfig :=
  match plugin.audio_ports with
  | some audio_ports => audio_ports.config
  | none => .ok AudioPortConfig.default

/-- Reading every parameter's current value in `param_infos` key order
(params.rs lines 289–292 and 320–323); the source collects these into a
`BTreeMap` keyed by parameter id, which iterates its keys in this same
order. -/
def getParamValues {σ : Type} (params : ParamsExt σ) (st : σ)
    (infos : List (Nat × ParamInfo)) : Except String (List (Nat × Int)) :=
  infos.mapM fun p => do
    let v ← params.get st p.1
    .ok (p.1, v)

/-- `test_wrong_namespace_set_params` (params.rs lines 256–339): record every
parameter's value, process one block whose input queue holds a `ParamValue`
event per parameter stamped with `INCORRECT_NAMESPACE_ID`, re-read every
parameter, and report `Success` exactly when the two value maps are equal,
`Failed` (not an error) otherwise. -/
def test_wrong_namespace_set_params {σ : Type} (library : PluginLibrary σ)
    (host : HostModel) (prng : Prng) : Except String TestStatus := do
  let plugin ← library.create_plugin
  let _ ← plugin.init
  let audio_ports_config ← audioPortsConfigOf plugin
  match plugin.params with
  | none =>
    .ok (TestStatus.Skipped
      (some "The plugin does not support the 'params' extension."))
  | some params => do
    let param_infos ← params.info
    let initial_param_values ← getParamValues params plugin.initial_state param_infos
    let fuzz_result := ParamFuzzer.randomize_params_at param_infos prng 0
    let random_param_set_events ← overrideNamespace fuzz_result.1
    let bufs := audio_ports_config.create_buffers BUFFER_SIZE
    let buffers ← ProcessingTest.new_out_of_place bufs.1 bufs.2
    let run_result ← ProcessingTest.run_once plugin buffers.lenFn
      (fun _ _q => .ok ((), random_param_set_events)) plugin.initial_state ()
    let actual_param_values ← getParamValues params run_result.1 param_infos
    let _ ← host.thread_safety_check
    if actual_param_values = initial_param_values then
      .ok (TestStatus.Success none)
    else
      .ok (TestStatus.Failed
        (some "Sending events with type ID CLAP_EVENT_PARAM_VALUE and an incorrect namespace ID to the plugin caused its parameter values to change. This should not happen. The plugin may not be checking the event namespace ID."))

/-! ## The CLI dispatch (`src/main.rs`) -/

/-- The `Commands` enum from `main.rs`. -/
inductive Commands where
  | Validate (paths : List String) (in_process : Bool) (json : Bool)
  | List (json : Bool)
deriving Repr, DecidableEq

/-- How an invocation of `main` terminates: the `Validate` arm of the
`match` is `todo!("Implement the validator")`, a Rust panic that aborts the
process with a panic exit status; no test matrix runs and no 0/1/2 exit code
is produced. -/
inductive MainOutcome where
  | panicked (msg : String)
  | completed
deriving Repr, DecidableEq

/-- `main` from `main.rs` (lines 45–56), after argument parsing. (Named
`main_dispatch` because Lean reserves `main` for an `IO` entry point.) -/
def main_dispatch : Commands → MainOutcome
  | Commands.Validate _ _ _ => .panicked "not yet implemented: Implement the validator"
  | Commands.List _ => .completed

/-! # Theorems -/

/-- Monadic bind on `Except` consumes a success. -/
theorem exceptBind_ok {ε α β : Type} (a : α) (f : α → Except ε β) :
    (Bind.bind (Except.ok a : Except ε α) f) = f a := rfl

/-- Monadic bind on `Except` propagates an error. -/
theorem exceptBind_error {ε α β : Type} (e : ε) (f : α → Except ε β) :
    (Bind.bind (Except.error e : Except ε α) f) = Except.error e := rfl

/-! ## Audio buffer construction (C1, C2) -/

/-- The sample-count scan with a committed count accepts exactly the lists
whose channels all have that count. -/
theorem checkSampleCounts_some_char (cs : List FChan) (n : Nat) :
    OutOfPlaceAudioBuffers.checkSampleCounts cs (some n) =
      if ∀ c ∈ cs, c.len = n then .ok (some n)
      else .error "Inconsistent sample counts in audio buffers." := by
  induction cs with
  | nil => simp [OutOfPlaceAudioBuffers.checkSampleCounts]
  | cons c rest ih =>
    by_cases h : c.len = n
    · simp [OutOfPlaceAudioBuffers.checkSampleCounts, h, ih]
    · simp [OutOfPlaceAudioBuffers.checkSampleCounts, h]

/-- The sample-count scan from scratch: empty channel lists yield no count,
and otherwise every channel must match the first channel's count. -/
theorem checkSampleCounts_none_char (cs : List FChan) :
    OutOfPlaceAudioBuffers.checkSampleCounts cs none =
      match cs with
      | [] => .ok none
      | c :: rest =>
        if ∀ c' ∈ rest, c'.len = c.len then .ok (some c.len)
        else .error "Inconsistent sample counts in audio buffers." := by
  cases cs with
  | nil => rfl
  | cons c rest =>
    simpa [OutOfPlaceAudioBuffers.checkSampleCounts] using
      checkSampleCounts_some_char rest c.len

/-- Closed form of `OutOfPlaceAudioBuffers::new` when there are no channel
vectors at all. -/
theorem OutOfPlaceAudioBuffers_new_char_nil (inputs outputs : List (List FChan))
    (hc : (inputs ++ outputs).flatten = []) :
    OutOfPlaceAudioBuffers.new inputs outputs =
      .ok
        { inputs := inputs
          outputs := outputs
          input_channel_pointers := inputs.map (fun port => port.map FChan.addr)
          output_channel_pointers := outputs.map (fun port => port.map FChan.addr)
          num_samples := 0 } := by
  unfold OutOfPlaceAudioBuffers.new
  rw [hc, checkSampleCounts_none_char]
  rfl

/-- Closed form of `OutOfPlaceAudioBuffers::new` with at least one channel
vector: success, with the first channel's length as the sample count, exactly
when every channel matches the first. -/
theorem OutOfPlaceAudioBuffers_new_char_cons (inputs outputs : List (List FChan))
    (c : FChan) (rest : List FChan) (hc : (inputs ++ outputs).flatten = c :: rest) :
    OutOfPlaceAudioBuffers.new inputs outputs =
      if ∀ c' ∈ rest, c'.len = c.len then
        .ok
          { inputs := inputs
            outputs := outputs
            input_channel_pointers := inputs.map (fun port => port.map FChan.addr)
            output_channel_pointers := outputs.map (fun port => port.map FChan.addr)
            num_samples := c.len }
      else .error "Inconsistent sample counts in audio buffers." := by
  unfold OutOfPlaceAudioBuffers.new
  rw [hc, checkSampleCounts_none_char]
  by_cases h : ∀ c' ∈ rest, c'.len = c.len
  · dsimp only
    rw [if_pos h, if_pos h]
    rfl
  · dsimp only
    rw [if_neg h, if_neg h]
    rfl

/-- In a nonempty channel list, some pair of channels has differing lengths
exactly when some channel differs from the first one. -/
theorem exists_diff_pair_iff (c : FChan) (rest : List FChan) :
    (∃ c1 ∈ c :: rest, ∃ c2 ∈ c :: rest, c1.len ≠ c2.len) ↔
      ¬∀ c' ∈ rest, c'.len = c.len := by
  constructor
  · rintro ⟨c1, h1, c2, h2, hne⟩ hall
    have len_of : ∀ x ∈ c :: rest, x.len = c.len := by
      intro x hx
      rcases List.mem_cons.mp hx with rfl | hx
      · rfl
      · exact hall x hx
    exact hne ((len_of c1 h1).trans (len_of c2 h2).symm)
  · intro hnot
    push_neg at hnot
    rcases hnot with ⟨c', hmem, hne⟩
    exact ⟨c', List.mem_cons_of_mem c hmem, c, List.mem_cons_self c rest, hne⟩

/-- **C1.** The claim that `output_channel_pointers()` returns the table of
output channel pointers fails on the code: for the successfully constructed
buffers with one input channel (base pointer 1) and one output channel (base
pointer 2), the output accessor returns the input pointer table `[[1]]`,
which differs from the stored output table `[[2]]`. The accessor contradicts
its own documentation ("Pointers for the outputs"): a code bug, as the spec's
design note §9 records. -/
theorem c1_output_accessor_returns_input_pointers :
    (OutOfPlaceAudioBuffers.new [[FChan.mk 1 4]] [[FChan.mk 2 4]]).map
        OutOfPlaceAudioBuffers.output_channel_pointersFn = .ok [[1]] ∧
    (OutOfPlaceAudioBuffers.new [[FChan.mk 1 4]] [[FChan.mk 2 4]]).map
        OutOfPlaceAudioBuffers.output_channel_pointers = .ok [[2]] ∧
    ([[1]] : List (List Nat)) ≠ [[2]] := by
  refine ⟨rfl, rfl, by decide⟩

/-- **C2.** `OutOfPlaceAudioBuffers::new` fails with the
inconsistent-sample-count error exactly when two channel vectors anywhere
among the inputs and outputs have different lengths; when all channel vectors
share length `n` it succeeds with `len() = n`; and with no channel vectors at
all (zero-channel ports included) it succeeds with `len() = 0`. -/
theorem c2_new_sample_count_contract (inputs outputs : List (List FChan)) (n : Nat) :
    ((∃ e, OutOfPlaceAudioBuffers.new inputs outputs = .error e) ↔
      ∃ c1 ∈ (inputs ++ outputs).flatten, ∃ c2 ∈ (inputs ++ outputs).flatten,
        c1.len ≠ c2.len)
    ∧ ((∀ c ∈ (inputs ++ outputs).flatten, c.len = n) →
        ∃ b, OutOfPlaceAudioBuffers.new inputs outputs = .ok b ∧
          ((inputs ++ outputs).flatten ≠ [] → b.lenFn = n))
    ∧ ((inputs ++ outputs).flatten = [] →
        ∃ b, OutOfPlaceAudioBuffers.new inputs outputs = .ok b ∧ b.lenFn = 0) := by
  cases hc : (inputs ++ outputs).flatten with
  | nil =>
    have hchar := OutOfPlaceAudioBuffers_new_char_nil inputs outputs hc
    refine ⟨?_, ?_, ?_⟩
    · simp only [hchar, hc]
      constructor
      · rintro ⟨e, he⟩
        cases he
      · rintro ⟨c1, h1, -⟩
        cases h1
    · intro _
      exact ⟨_, hchar, fun hne => absurd rfl hne⟩
    · intro _
      exact ⟨_, hchar, rfl⟩
  | cons c rest =>
    have hchar := OutOfPlaceAudioBuffers_new_char_cons inputs outputs c rest hc
    by_cases h : ∀ c' ∈ rest, c'.len = c.len
    · rw [if_pos h] at hchar
      refine ⟨?_, ?_, ?_⟩
      · constructor
        · rintro ⟨e, he⟩
          rw [hchar] at he
          cases he
        · intro hex
          exact absurd h ((exists_diff_pair_iff c rest).mp hex)
      · intro hall
        refine ⟨_, hchar, fun _ => ?_⟩
        exact hall c (List.mem_cons_self c rest)
      · intro hemp
        cases hemp
    · rw [if_neg h] at hchar
      refine ⟨?_, ?_, ?_⟩
      · exact ⟨fun _ => (exists_diff_pair_iff c rest).mpr h, fun _ => ⟨_, hchar⟩⟩
      · intro hall
        exact absurd (fun c' hc' =>
          (hall c' (List.mem_cons_of_mem c hc')).trans
            (hall c (List.mem_cons_self c rest)).symm) h
      · intro hemp
        cases hemp

/-- Witness for C2 at the spec's concrete scenarios: two ports of two
8-sample channels succeed with `len() = 8`; a 7-sample channel alongside an
8-sample one fails; two zero-channel ports succeed with `len() = 0`. -/
theorem c2_new_sample_count_contract_witness :
    (∃ b, OutOfPlaceAudioBuffers.new [[FChan.mk 0 8, FChan.mk 1 8]]
        [[FChan.mk 2 8, FChan.mk 3 8]] = .ok b ∧ b.lenFn = 8)
    ∧ (∃ e, OutOfPlaceAudioBuffers.new [[FChan.mk 0 8, FChan.mk 1 7]] [] = .error e)
    ∧ (∃ b, OutOfPlaceAudioBuffers.new [[], []] [] = .ok b ∧ b.lenFn = 0) := by
  refine ⟨?_, ?_, ?_⟩
  · obtain ⟨-, h2, -⟩ := c2_new_sample_count_contract
      [[FChan.mk 0 8, FChan.mk 1 8]] [[FChan.mk 2 8, FChan.mk 3 8]] 8
    obtain ⟨b, hb, hlen⟩ := h2 (by decide)
    exact ⟨b, hb, hlen (by decide)⟩
  · obtain ⟨h1, -, -⟩ := c2_new_sample_count_contract
      [[FChan.mk 0 8, FChan.mk 1 7]] [] 0
    exact h1.mpr (by decide)
  · obtain ⟨-, -, h3⟩ := c2_new_sample_count_contract [[], []] [] 0
    exact h3 (by decide)

/-! ## Transport advancement (C6, C10) -/

/-- **C6.** `advance_transport(n)` increments the sample position by `n`
(a `u32` addition, hence modulo `2^32`; exactly `+ n` whenever the sum stays
in the 32-bit range) and then recomputes
`song_pos_beats = round((sample_pos / sample_rate / 60) * tempo * BEAT_SCALE)`
and `song_pos_seconds = round((sample_pos / sample_rate) * SEC_SCALE)` from
the new absolute position. -/
theorem c6_advance_transport_formulas (d : ProcessData) (n : Nat) :
    ((d.advance_transport n).sample_pos = (d.sample_pos + n) % 2 ^ 32)
    ∧ (d.sample_pos + n < 2 ^ 32 →
        (d.advance_transport n).sample_pos = d.sample_pos + n)
    ∧ (d.advance_transport n).transport_info.song_pos_beats =
        round (((((d.sample_pos + n) % 2 ^ 32 : Nat) : ℚ) / d.sample_rate / 60 *
          d.transport_info.tempo) * (CLAP_BEATTIME_FACTOR : ℚ))
    ∧ (d.advance_transport n).transport_info.song_pos_seconds =
        round (((((d.sample_pos + n) % 2 ^ 32 : Nat) : ℚ) / d.sample_rate) *
          (CLAP_SECTIME_FACTOR : ℚ)) := by
  exact ⟨rfl, fun h => Nat.mod_eq_of_lt h, rfl, rfl⟩

/-- Witness for C6 at the spec's concrete scenario: sample rate `48000`,
tempo `120`, one advance by `24000` from the initial state gives sample
position `24000`, `song_pos_seconds = 0.5 * SEC_SCALE = 2^30` and
`song_pos_beats = 1.0 * BEAT_SCALE = 2^31`. -/
theorem c6_advance_transport_formulas_witness :
    (((ProcessData.new
        (AudioBuffers.OutOfPlace
          (OutOfPlaceAudioBuffers.mk [] [] [] [] 0)) 48000 120 4 4).advance_transport
        24000).sample_pos = 24000)
    ∧ (((ProcessData.new
        (AudioBuffers.OutOfPlace
          (OutOfPlaceAudioBuffers.mk [] [] [] [] 0)) 48000 120 4 4).advance_transport
        24000).transport_info.song_pos_seconds = 2 ^ 30)
    ∧ (((ProcessData.new
        (AudioBuffers.OutOfPlace
          (OutOfPlaceAudioBuffers.mk [] [] [] [] 0)) 48000 120 4 4).advance_transport
        24000).transport_info.song_pos_beats = 2 ^ 31) := by
  obtain ⟨-, h2, h3, h4⟩ := c6_advance_transport_formulas
    (ProcessData.new
      (AudioBuffers.OutOfPlace (OutOfPlaceAudioBuffers.mk [] [] [] [] 0))
      48000 120 4 4) 24000
  refine ⟨h2 (by decide), ?_, ?_⟩
  · rw [h4]
    norm_num [ProcessData.new, CLAP_SECTIME_FACTOR, round_eq]
  · rw [h3]
    norm_num [ProcessData.new, CLAP_BEATTIME_FACTOR, round_eq]

/-- **C10.** `advance_transport` is additive: when `a + b` keeps the sample
position inside the 32-bit range, advancing by `a` and then by `b` yields the
same `ProcessData` — sample position, `song_pos_beats` and
`song_pos_seconds` included — as a single advance by `a + b`, because both
positions are recomputed from the absolute sample position. -/
theorem c10_advance_transport_additive (d : ProcessData) (a b : Nat)
    (h : d.sample_pos + a + b < 2 ^ 32) :
    (d.advance_transport a).advance_transport b = d.advance_transport (a + b) := by
  have ha : (d.sample_pos + a) % 2 ^ 32 = d.sample_pos + a :=
    Nat.mod_eq_of_lt (lt_of_le_of_lt (Nat.le_add_right _ b) h)
  cases d with
  | mk buffers ti pos rate =>
    cases ti with
    | mk header flags beats secs tempo tempo_inc lsb leb lss les bar_start bar_number num den =>
      simp only [ProcessData.advance_transport] at *
      simp [ha, Nat.add_assoc]

/-- Witness for C10: from the initial state at sample rate `48000`, advancing
by `100` then `200` equals advancing by `300`. -/
theorem c10_advance_transport_additive_witness :
    ((ProcessData.new
        (AudioBuffers.OutOfPlace (OutOfPlaceAudioBuffers.mk [] [] [] [] 0))
        48000 120 4 4).advance_transport 100).advance_transport 200 =
      (ProcessData.new
        (AudioBuffers.OutOfPlace (OutOfPlaceAudioBuffers.mk [] [] [] [] 0))
        48000 120 4 4).advance_transport (100 + 200) :=
  c10_advance_transport_additive _ 100 200 (by decide)

/-! ## The convert-params test (C3, C4) -/

/-- One step of the value loop when all four conversion calls succeed: the
two consistency checks, in source order, then the loop continues with both
support counters incremented. -/
theorem convert_values_cons_char {σ : Type} (params : ParamsExt σ) (param_id : Nat)
    (param_name : String) (v : Int) (rest : List Int) (st : ConvertState)
    (t1 : String) (v' : Int) (t2 : String) (v'' : Int)
    (h1 : params.value_to_text param_id v = .ok (some t1))
    (h2 : params.text_to_value param_id t1 = .ok (some v'))
    (h3 : params.value_to_text param_id v' = .ok (some t2))
    (h4 : params.text_to_value param_id t2 = .ok (some v'')) :
    convert_values params param_id param_name (v :: rest) st =
      if t1 ≠ t2 then
        .error "Converting to a string, back to a value, and then back to a string again is not consistent."
      else if v'' ≠ v' then
        .error "Converting to a string, back to a value, back to a string, and then back to a value again is not consistent."
      else
        convert_values params param_id param_name rest
          { st with
            num_supported_value_to_text := st.num_supported_value_to_text + 1
            num_supported_text_to_value := st.num_supported_text_to_value + 1 } := by
  simp [convert_values, h1, h2, h3, h4, exceptBind_ok]

/-- **C3.** For a sampled value on which `value_to_text` and `text_to_value`
both succeed (`v ↦ t1 ↦ v' ↦ t2 ↦ v''`), the conversion loop errors — and
`test_convert_params` therefore returns an error — if and only if the
reconverted text `t2` differs from the starting text `t1` or the final value
`v''` differs bit-for-bit from the reconverted value `v'`; otherwise it
proceeds to the remaining sampled values with both support counters
incremented. -/
theorem c3_convert_params_round_trip {σ : Type} (params : ParamsExt σ)
    (param_id : Nat) (param_name : String) (v : Int) (rest : List Int)
    (st : ConvertState) (t1 : String) (v' : Int) (t2 : String) (v'' : Int)
    (h1 : params.value_to_text param_id v = .ok (some t1))
    (h2 : params.text_to_value param_id t1 = .ok (some v'))
    (h3 : params.value_to_text param_id v' = .ok (some t2))
    (h4 : params.text_to_value param_id t2 = .ok (some v'')) :
    ((t2 ≠ t1 ∨ v'' ≠ v') →
      ∃ e, convert_values params param_id param_name (v :: rest) st = .error e)
    ∧ ((t2 = t1 ∧ v'' = v') →
      convert_values params param_id param_name (v :: rest) st =
        convert_values params param_id param_name rest
          { st with
            num_supported_value_to_text := st.num_supported_value_to_text + 1
            num_supported_text_to_value := st.num_supported_text_to_value + 1 })
    ∧ (rest = [] →
      ((∃ e, convert_values params param_id param_name (v :: rest) st = .error e) ↔
        (t2 ≠ t1 ∨ v'' ≠ v'))) := by
  have hstep := convert_values_cons_char params param_id param_name v rest st
    t1 v' t2 v'' h1 h2 h3 h4
  have herr : (t2 ≠ t1 ∨ v'' ≠ v') →
      ∃ e, convert_values params param_id param_name (v :: rest) st = .error e := by
    intro hmis
    rw [hstep]
    by_cases ht : t1 = t2
    · have hv : v'' ≠ v' := by
        rcases hmis with h | h
        · exact absurd ht.symm h
        · exact h
      rw [if_neg (not_not_intro ht), if_pos hv]
      exact ⟨_, rfl⟩
    · rw [if_pos ht]
      exact ⟨_, rfl⟩
  have hcont : (t2 = t1 ∧ v'' = v') →
      convert_values params param_id param_name (v :: rest) st =
        convert_values params param_id param_name rest
          { st with
            num_supported_value_to_text := st.num_supported_value_to_text + 1
            num_supported_text_to_value := st.num_supported_text_to_value + 1 } := by
    rintro ⟨hteq, hveq⟩
    subst hteq
    subst hveq
    rw [hstep, if_neg (not_not_intro rfl), if_neg (not_not_intro rfl)]
  refine ⟨herr, hcont, fun hrest => ⟨?_, herr⟩⟩
  subst hrest
  rintro ⟨e, he⟩
  by_contra hno
  push_neg at hno
  rw [hcont ⟨hno.1, hno.2⟩] at he
  simp [convert_values] at he

/-- Witness for C3 with a concrete parameter whose conversions round-trip
(`value_to_text` says "x" for every value, `text_to_value` reads every text
as 7): with one sampled value the loop succeeds, and forcing a mismatching
final value `8 ≠ 7` errors. -/
theorem c3_convert_params_round_trip_witness :
    (convert_values
        (ParamsExt.mk (σ := Unit) (.ok [])
          (fun _ _ => .ok (some "x")) (fun _ _ => .ok (some 7))
          (fun _ _ => .ok 0)) 0 "Gain" [5]
        ConvertState.initial =
      convert_values
        (ParamsExt.mk (σ := Unit) (.ok [])
          (fun _ _ => .ok (some "x")) (fun _ _ => .ok (some 7))
          (fun _ _ => .ok 0)) 0 "Gain" []
        { ConvertState.initial with
          num_supported_value_to_text := ConvertState.initial.num_supported_value_to_text + 1
          num_supported_text_to_value := ConvertState.initial.num_supported_text_to_value + 1 })
    ∧ ∃ e, convert_values
        (ParamsExt.mk (σ := Unit) (.ok [])
          (fun _ v => if v = 5 then .ok (some "five") else .ok (some "seven"))
          (fun _ s => if s = "five" then .ok (some 7) else .ok (some 9))
          (fun _ _ => .ok 0)) 1 "Gain" [5]
        ConvertState.initial = .error e := by
  constructor
  · obtain ⟨-, hcont, -⟩ := c3_convert_params_round_trip
      (ParamsExt.mk (σ := Unit) (.ok [])
        (fun _ _ => .ok (some "x")) (fun _ _ => .ok (some 7))
        (fun _ _ => .ok 0)) 0 "Gain" 5 [] ConvertState.initial
      "x" 7 "x" 7 rfl rfl rfl rfl
    exact hcont ⟨rfl, rfl⟩
  · obtain ⟨herr, -, -⟩ := c3_convert_params_round_trip
      (ParamsExt.mk (σ := Unit) (.ok [])
        (fun _ v => if v = 5 then .ok (some "five") else .ok (some "seven"))
        (fun _ s => if s = "five" then .ok (some 7) else .ok (some 9))
        (fun _ _ => .ok 0)) 1 "Gain" 5 [] ConvertState.initial
      "five" 7 "seven" 9 rfl rfl rfl rfl
    exact herr (by decide)

/-- **C4.** `test_convert_params`, once its conversion loop has completed
with the counts in `st`: a `value_to_text` success count that is neither zero
nor the total number of attempted conversions (parameters × 6) is a failure
(an error), likewise for `text_to_value`; and when the counts pass those
checks and the thread-safety check, a zero count in either direction yields a
`Skipped` status. -/
theorem c4_convert_params_support_policy {σ : Type} (library : PluginLibrary σ)
    (host : HostModel) (prng : Prng) (plugin : Plugin σ) (params : ParamsExt σ)
    (param_infos : List (Nat × ParamInfo)) (st : ConvertState)
    (h_create : library.create_plugin = .ok plugin)
    (h_init : plugin.init = .ok ())
    (h_params : plugin.params = some params)
    (h_info : params.info = .ok param_infos)
    (h_loop : convert_param_loop params param_infos prng ConvertState.initial = .ok st) :
    (¬(st.num_supported_value_to_text = 0 ∨
        st.num_supported_value_to_text = param_infos.length * VALUES_PER_PARAM) →
      ∃ e, test_convert_params library host prng = .error e)
    ∧ ((st.num_supported_value_to_text = 0 ∨
        st.num_supported_value_to_text = param_infos.length * VALUES_PER_PARAM) →
      ¬(st.num_supported_text_to_value = 0 ∨
        st.num_supported_text_to_value = param_infos.length * VALUES_PER_PARAM) →
      ∃ e, test_convert_params library host prng = .error e)
    ∧ ((st.num_supported_value_to_text = 0 ∨
        st.num_supported_value_to_text = param_infos.length * VALUES_PER_PARAM) →
      (st.num_supported_text_to_value = 0 ∨
        st.num_supported_text_to_value = param_infos.length * VALUES_PER_PARAM) →
      host.thread_safety_check = .ok () →
      (st.num_supported_value_to_text = 0 ∨ st.num_supported_text_to_value = 0) →
      test_convert_params library host prng =
        .ok (TestStatus.Skipped
          (some "The plugin's parameters need to support both value to text and text to value conversions for this test."))) := by
  have hbase : test_convert_params library host prng =
      (if ¬(st.num_supported_value_to_text = 0 ∨
          st.num_supported_value_to_text = param_infos.length * VALUES_PER_PARAM) then
        .error "value_to_text returned true for only part of the calls. This function is expected to be supported for either none of the parameters or for all of them."
      else if ¬(st.num_supported_text_to_value = 0 ∨
          st.num_supported_text_to_value = param_infos.length * VALUES_PER_PARAM) then
        .error "text_to_value returned true for only part of the calls. This function is expected to be supported for either none of the parameters or for all of them."
      else do
        let _ ← host.thread_safety_check
        if st.num_supported_value_to_text = 0 ∨ st.num_supported_text_to_value = 0 then
          .ok (TestStatus.Skipped
            (some "The plugin's parameters need to support both value to text and text to value conversions for this test."))
        else
          .ok (TestStatus.Success none)) := by
    simp only [test_convert_params, h_create, exceptBind_ok, h_init, h_params,
      h_info, h_loop]
  refine ⟨?_, ?_, ?_⟩
  · intro hnot
    rw [hbase, if_pos hnot]
    exact ⟨_, rfl⟩
  · intro hok hnot
    rw [hbase, if_neg (not_not_intro hok), if_pos hnot]
    exact ⟨_, rfl⟩
  · intro hok1 hok2 hthread hskip
    rw [hbase, if_neg (not_not_intro hok1), if_neg (not_not_intro hok2), hthread,
      exceptBind_ok, if_pos hskip]

/-- Witness for C4: a plugin with one parameter whose `value_to_text` always
succeeds but whose `text_to_value` is never supported ends the loop with
counts `(6, 0)` — all-or-nothing holds in both directions — and the test
reports `Skipped`. -/
theorem c4_convert_params_support_policy_witness :
    test_convert_params
        (PluginLibrary.mk (σ := Unit)
          (.ok
            { init := .ok ()
              params := some
                { info := .ok [(0, ParamInfo.mk "Gain" (-60) 0)]
                  value_to_text := fun _ _ => .ok (some "x")
                  text_to_value := fun _ _ => .ok none
                  get := fun _ _ => .ok 0 }
              audio_ports := none
              note_ports := none
              initial_state := ()
              process := fun s _ => .ok s }))
        (HostModel.mk (.ok ())) [] =
      .ok (TestStatus.Skipped
        (some "The plugin's parameters need to support both value to text and text to value conversions for this test.")) := by
  obtain ⟨-, -, hc⟩ := c4_convert_params_support_policy
    (PluginLibrary.mk (σ := Unit)
      (.ok
        { init := .ok ()
          params := some
            { info := .ok [(0, ParamInfo.mk "Gain" (-60) 0)]
              value_to_text := fun _ _ => .ok (some "x")
              text_to_value := fun _ _ => .ok none
              get := fun _ _ => .ok 0 }
          audio_ports := none
          note_ports := none
          initial_state := ()
          process := fun s _ => .ok s }))
    (HostModel.mk (.ok ())) []
    { init := .ok ()
      params := some
        { info := .ok [(0, ParamInfo.mk "Gain" (-60) 0)]
          value_to_text := fun _ _ => .ok (some "x")
          text_to_value := fun _ _ => .ok none
          get := fun _ _ => .ok 0 }
      audio_ports := none
      note_ports := none
      initial_state := ()
      process := fun s _ => .ok s }
    { info := .ok [(0, ParamInfo.mk "Gain" (-60) 0)]
      value_to_text := fun _ _ => .ok (some "x")
      text_to_value := fun _ _ => .ok none
      get := fun _ _ => .ok 0 }
    [(0, ParamInfo.mk "Gain" (-60) 0)]
    { num_supported_value_to_text := 6
      num_supported_text_to_value := 0
      failed_value_to_text_calls := []
      failed_text_to_value_calls :=
        [("Gain", "x"), ("Gain", "x"), ("Gain", "x"), ("Gain", "x"),
          ("Gain", "x"), ("Gain", "x")] }
    rfl rfl rfl rfl rfl
  exact hc (by decide) (by decide) rfl (by decide)

/-! ## Missing `params` extension (C9) -/

/-- **C9.** When the plugin does not advertise the `params` extension, each
of the three parameter tests returns a `Skipped` status carrying the
explanatory detail string, not a failure and not an error. -/
theorem c9_no_params_extension_skips {σ : Type} (library : PluginLibrary σ)
    (host : HostModel) (prng : Prng)
    (note_fill : Option (Prng → List Event → Nat → Except String (List Event × Prng)))
    (plugin : Plugin σ) (cfg : AudioPortConfig)
    (h_create : library.create_plugin = .ok plugin)
    (h_init : plugin.init = .ok ())
    (h_none : plugin.params = none)
    (h_ap : audioPortsConfigOf plugin = .ok cfg) :
    test_convert_params library host prng =
      .ok (TestStatus.Skipped
        (some "The plugin does not support the 'params' extension."))
    ∧ test_random_fuzz_params library host prng note_fill =
      .ok (TestStatus.Skipped
        (some "The plugin does not support the 'params' extension."), [])
    ∧ test_wrong_namespace_set_params library host prng =
      .ok (TestStatus.Skipped
        (some "The plugin does not support the 'params' extension.")) := by
  refine ⟨?_, ?_, ?_⟩
  · simp only [test_convert_params, h_create, exceptBind_ok, h_init, h_none]
  · simp only [test_random_fuzz_params, h_create, exceptBind_ok, h_init, h_none]
  · simp only [test_wrong_namespace_set_params, h_create, exceptBind_ok, h_init,
      h_ap, h_none]

/-- Witness for C9: a plugin advertising no extensions at all is skipped by
all three tests. -/
theorem c9_no_params_extension_skips_witness :
    test_convert_params
        (PluginLibrary.mk (σ := Unit)
          (.ok
            { init := .ok ()
              params := none
              audio_ports := none
              note_ports := none
              initial_state := ()
              process := fun s _ => .ok s }))
        (HostModel.mk (.ok ())) [] =
      .ok (TestStatus.Skipped
        (some "The plugin does not support the 'params' extension."))
    ∧ test_random_fuzz_params
        (PluginLibrary.mk (σ := Unit)
          (.ok
            { init := .ok ()
              params := none
              audio_ports := none
              note_ports := none
              initial_state := ()
              process := fun s _ => .ok s }))
        (HostModel.mk (.ok ())) [] none =
      .ok (TestStatus.Skipped
        (some "The plugin does not support the 'params' extension."), [])
    ∧ test_wrong_namespace_set_params
        (PluginLibrary.mk (σ := Unit)
          (.ok
            { init := .ok ()
              params := none
              audio_ports := none
              note_ports := none
              initial_state := ()
              process := fun s _ => .ok s }))
        (HostModel.mk (.ok ())) [] =
      .ok (TestStatus.Skipped
        (some "The plugin does not support the 'params' extension.")) :=
  c9_no_params_extension_skips
    (PluginLibrary.mk (σ := Unit)
      (.ok
        { init := .ok ()
          params := none
          audio_ports := none
          note_ports := none
          initial_state := ()
          process := fun s _ => .ok s }))
    (HostModel.mk (.ok ())) [] none
    { init := .ok ()
      params := none
      audio_ports := none
      note_ports := none
      initial_state := ()
      process := fun s _ => .ok s }
    AudioPortConfig.default rfl rfl rfl rfl

/-! ## The wrong-namespace test (C5) -/

/-- Every channel vector allocated by `mkPortBuffers` has the requested
block size. -/
theorem mkPortBuffers_len (counts : List Nat) (bs : Nat) :
    ∀ base, ∀ c ∈ (mkPortBuffers counts bs base).flatten, c.len = bs := by
  induction counts with
  | nil =>
    intro base c hc
    cases hc
  | cons k rest ih =>
    intro base c hc
    rw [mkPortBuffers, List.flatten_cons] at hc
    rcases List.mem_append.mp hc with hc | hc
    · rcases List.mem_map.mp hc with ⟨j, -, rfl⟩
      rfl
    · exact ih (base + k) c hc

/-- Wrapping the buffers allocated by `create_buffers` always succeeds, with
`len()` equal to the requested block size as soon as there is at least one
channel, and `0` otherwise. -/
theorem new_out_of_place_create_buffers (cfg : AudioPortConfig) (bs : Nat) :
    ∃ b, ProcessingTest.new_out_of_place (cfg.create_buffers bs).1
        (cfg.create_buffers bs).2 = .ok b
      ∧ (((cfg.create_buffers bs).1 ++ (cfg.create_buffers bs).2).flatten = [] →
          b.lenFn = 0)
      ∧ (((cfg.create_buffers bs).1 ++ (cfg.create_buffers bs).2).flatten ≠ [] →
          b.lenFn = bs) := by
  have hall : ∀ c ∈ ((cfg.create_buffers bs).1 ++ (cfg.create_buffers bs).2).flatten,
      c.len = bs := by
    intro c hc
    rw [List.flatten_append] at hc
    rcases List.mem_append.mp hc with hc | hc
    · exact mkPortBuffers_len cfg.inputs bs 0 c hc
    · exact mkPortBuffers_len cfg.outputs bs cfg.inputs.sum c hc
  cases hc : ((cfg.create_buffers bs).1 ++ (cfg.create_buffers bs).2).flatten with
  | nil =>
    exact ⟨_, OutOfPlaceAudioBuffers_new_char_nil _ _ hc, fun _ => rfl,
      fun h => absurd rfl h⟩
  | cons c rest =>
    have hchar := OutOfPlaceAudioBuffers_new_char_cons _ _ c rest hc
    have hcl : c.len = bs := by
      refine hall c ?_
      rw [hc]
      exact List.mem_cons_self c rest
    have hr : ∀ c' ∈ rest, c'.len = c.len := by
      intro c' hc'
      have : c' ∈ ((cfg.create_buffers bs).1 ++ (cfg.create_buffers bs).2).flatten := by
        rw [hc]
        exact List.mem_cons_of_mem c hc'
      exact (hall c' this).trans hcl.symm
    rw [if_pos hr] at hchar
    exact ⟨_, hchar, fun h => absurd h (List.cons_ne_nil c rest), fun _ => hcl⟩

/-- The wrong-namespace event batch: `ParamFuzzer::randomize_params_at`
followed by the namespace rewrite succeeds and yields one `ParamValue` event
per parameter, in order, at the requested time, stamped with
`INCORRECT_NAMESPACE_ID`. -/
theorem override_randomize (infos : List (Nat × ParamInfo)) (prng : Prng) (t : Nat) :
    ∃ evs, overrideNamespace (ParamFuzzer.randomize_params_at infos prng t).1 = .ok evs
      ∧ List.Forall₂ (fun ev (p : Nat × ParamInfo) => ∃ e, ev = Event.ParamValue e ∧
          e.param_id = p.1 ∧ e.header.time = t ∧
          e.header.space_id = INCORRECT_NAMESPACE_ID) evs infos
      ∧ ∀ ev ∈ evs, Event.time ev = t := by
  induction infos generalizing prng with
  | nil =>
    refine ⟨[], rfl, List.Forall₂.nil, ?_⟩
    intro ev h
    cases h
  | cons p rest ih =>
    obtain ⟨pid, info⟩ := p
    obtain ⟨evs, hov, hfa, htimes⟩ := ih (prng.gen_range info.range_start info.range_end).2
    refine ⟨Event.ParamValue
        { header :=
            { time := t
              space_id := INCORRECT_NAMESPACE_ID
              type_ := CLAP_EVENT_PARAM_VALUE
              flags := 0 }
          param_id := pid
          value := (prng.gen_range info.range_start info.range_end).1 } :: evs,
      ?_, ?_, ?_⟩
    · simp only [ParamFuzzer.randomize_params_at, overrideNamespace, hov, exceptBind_ok]
    · exact List.Forall₂.cons ⟨_, rfl, rfl, rfl, rfl⟩ hfa
    · intro ev hev
      rcases List.mem_cons.mp hev with rfl | hev
      · rfl
      · exact htimes ev hev

/-- Sorting an event queue whose events all carry time `0` leaves it
unchanged (the sort is stable, and all keys are equal). -/
theorem sortEvents_of_times_zero (l : List Event)
    (h : ∀ ev ∈ l, Event.time ev = 0) : sortEvents l = l := by
  induction l with
  | nil => rfl
  | cons a l ih =>
    have ha := h a (List.mem_cons_self a l)
    have hl := ih (fun ev hev => h ev (List.mem_cons_of_mem a hev))
    show List.insertionSort (fun x y => Event.time x ≤ Event.time y) (a :: l) = a :: l
    simp only [List.insertionSort]
    rw [show List.insertionSort (fun x y => Event.time x ≤ Event.time y) l = l from hl]
    cases l with
    | nil => rfl
    | cons b l' =>
      exact List.orderedInsert_of_le _ _
        (show Event.time a ≤ Event.time b by rw [ha]; exact Nat.zero_le _)

/-- One block of the driver with a setup closure whose outcome on the reset
queue is known. -/
theorem run_once_char {σ C : Type} (plugin : Plugin σ) (bs : Nat)
    (setup : C → List Event → Except String (C × List Event)) (st : σ) (c : C)
    (c' : C) (q : List Event) (st' : σ)
    (hsetup : setup c [] = .ok (c', q))
    (hproc : plugin.process st (sortEvents q) = .ok st') :
    ProcessingTest.run_once plugin bs setup st c =
      .ok (st', c', [BlockRecord.mk (sortEvents q) bs]) := by
  simp [ProcessingTest.run_once, ProcessingTest.run, hsetup, exceptBind_ok, hproc]

/-- **C5.** `test_wrong_namespace_set_params` records every parameter's
value, processes one block whose input queue holds one `ParamValue` event per
parameter stamped with namespace `0xb33f`, re-reads every parameter, and
returns `Success` if and only if the re-read values equal the initial values
(exact equality, parameter by parameter); otherwise it returns a `Failed`
status, not an error. -/
theorem c5_wrong_namespace_guard {σ : Type} (library : PluginLibrary σ)
    (host : HostModel) (prng : Prng) (plugin : Plugin σ) (params : ParamsExt σ)
    (param_infos : List (Nat × ParamInfo)) (cfg : AudioPortConfig)
    (evs : List Event) (st1 : σ) (initial actual : List (Nat × Int))
    (h_create : library.create_plugin = .ok plugin)
    (h_init : plugin.init = .ok ())
    (h_ap : audioPortsConfigOf plugin = .ok cfg)
    (h_params : plugin.params = some params)
    (h_info : params.info = .ok param_infos)
    (h_initial : getParamValues params plugin.initial_state param_infos = .ok initial)
    (h_override : overrideNamespace
      (ParamFuzzer.randomize_params_at param_infos prng 0).1 = .ok evs)
    (h_process : plugin.process plugin.initial_state (sortEvents evs) = .ok st1)
    (h_actual : getParamValues params st1 param_infos = .ok actual)
    (h_thread : host.thread_safety_check = .ok ()) :
    (test_wrong_namespace_set_params library host prng =
        .ok (TestStatus.Success none) ↔ actual = initial)
    ∧ (actual ≠ initial → ∃ s, test_wrong_namespace_set_params library host prng =
        .ok (TestStatus.Failed (some s)))
    ∧ List.Forall₂ (fun ev (p : Nat × ParamInfo) => ∃ e, ev = Event.ParamValue e ∧
        e.param_id = p.1 ∧ e.header.time = 0 ∧
        e.header.space_id = INCORRECT_NAMESPACE_ID) evs param_infos := by
  obtain ⟨evs', hov, hfa, -⟩ := override_randomize param_infos prng 0
  have hevs : evs = evs' := by
    injection h_override.symm.trans hov
  subst hevs
  obtain ⟨b, hb, -, -⟩ := new_out_of_place_create_buffers cfg BUFFER_SIZE
  have hrun := run_once_char plugin b.lenFn
    (fun _ _q => .ok ((), evs)) plugin.initial_state () () evs st1 rfl h_process
  have hbase : test_wrong_namespace_set_params library host prng =
      (if actual = initial then .ok (TestStatus.Success none)
      else .ok (TestStatus.Failed
        (some "Sending events with type ID CLAP_EVENT_PARAM_VALUE and an incorrect namespace ID to the plugin caused its parameter values to change. This should not happen. The plugin may not be checking the event namespace ID."))) := by
    simp only [test_wrong_namespace_set_params, h_create, exceptBind_ok, h_init,
      h_ap, h_params, h_info, h_initial, h_override, hb, hrun, h_actual, h_thread]
  refine ⟨?_, ?_, hfa⟩
  · by_cases hai : actual = initial
    · rw [hbase, if_pos hai]
      exact ⟨fun _ => hai, fun _ => rfl⟩
    · rw [hbase, if_neg hai]
      constructor
      · intro h
        cases h
      · intro h
        exact absurd h hai
  · intro hai
    rw [hbase, if_neg hai]
    exact ⟨_, rfl⟩

/-- Witness for C5: a stateful plugin whose single parameter reads from its
state and whose `process` ignores events entirely; the re-read values equal
the initial values and the test succeeds. -/
theorem c5_wrong_namespace_guard_witness :
    test_wrong_namespace_set_params
        (PluginLibrary.mk (σ := Int)
          (.ok
            { init := .ok ()
              params := some
                { info := .ok [(0, ParamInfo.mk "Gain" 0 10)]
                  value_to_text := fun _ _ => .ok none
                  text_to_value := fun _ _ => .ok none
                  get := fun s _ => .ok s }
              audio_ports := none
              note_ports := none
              initial_state := 3
              process := fun s _ => .ok s }))
        (HostModel.mk (.ok ())) [] = .ok (TestStatus.Success none) := by
  obtain ⟨hiff, -, -⟩ := c5_wrong_namespace_guard
    (PluginLibrary.mk (σ := Int)
      (.ok
        { init := .ok ()
          params := some
            { info := .ok [(0, ParamInfo.mk "Gain" 0 10)]
              value_to_text := fun _ _ => .ok none
              text_to_value := fun _ _ => .ok none
              get := fun s _ => .ok s }
          audio_ports := none
          note_ports := none
          initial_state := 3
          process := fun s _ => .ok s }))
    (HostModel.mk (.ok ())) []
    { init := .ok ()
      params := some
        { info := .ok [(0, ParamInfo.mk "Gain" 0 10)]
          value_to_text := fun _ _ => .ok none
          text_to_value := fun _ _ => .ok none
          get := fun s _ => .ok s }
      audio_ports := none
      note_ports := none
      initial_state := 3
      process := fun s _ => .ok s }
    { info := .ok [(0, ParamInfo.mk "Gain" 0 10)]
      value_to_text := fun _ _ => .ok none
      text_to_value := fun _ _ => .ok none
      get := fun s _ => .ok s }
    [(0, ParamInfo.mk "Gain" 0 10)]
    AudioPortConfig.default
    [Event.ParamValue
      { header :=
          { time := 0
            space_id := INCORRECT_NAMESPACE_ID
            type_ := CLAP_EVENT_PARAM_VALUE
            flags := 0 }
        param_id := 0
        value := 0 }]
    3 [(0, 3)] [(0, 3)]
    rfl rfl rfl rfl rfl rfl rfl rfl rfl rfl
  exact hiff.mpr rfl

/-! ## The random-fuzz test (C7) -/

/-- Every event the fuzzer emits carries the requested time. -/
theorem randomize_params_at_times (infos : List (Nat × ParamInfo)) (prng : Prng)
    (t : Nat) :
    ∀ ev ∈ (ParamFuzzer.randomize_params_at infos prng t).1, Event.time ev = t := by
  induction infos generalizing prng with
  | nil =>
    intro ev h
    cases h
  | cons p rest ih =>
    obtain ⟨pid, info⟩ := p
    intro ev hev
    simp only [ParamFuzzer.randomize_params_at] at hev
    rcases List.mem_cons.mp hev with rfl | hev
    · rfl
    · exact ih _ ev hev

/-- The fuzzer emits one `ParamValue` event per parameter, in order, at the
requested time, in the core event namespace. -/
theorem randomize_params_at_forall (infos : List (Nat × ParamInfo)) (prng : Prng)
    (t : Nat) :
    List.Forall₂ (fun ev (p : Nat × ParamInfo) => ∃ e, ev = Event.ParamValue e ∧
        e.param_id = p.1 ∧ e.header.time = t ∧
        e.header.space_id = CLAP_CORE_EVENT_SPACE_ID)
      (ParamFuzzer.randomize_params_at infos prng t).1 infos := by
  induction infos generalizing prng with
  | nil => exact List.Forall₂.nil
  | cons p rest ih =>
    obtain ⟨pid, info⟩ := p
    exact List.Forall₂.cons ⟨_, rfl, rfl, rfl, rfl⟩ (ih _)

/-- Driver blocks after the fuzz closure's `Option::take` has fired: the
queue stays reset (empty) and the PRNG no longer moves; every block record is
an empty queue at the given block size. -/
theorem run_fuzz_none {σ : Type} (plugin : Plugin σ) (bs : Nat)
    (hproc : ∀ s q, ∃ s', plugin.process s q = .ok s') :
    ∀ (n : Nat) (st : σ) (prng : Prng), ∃ stf,
      ProcessingTest.run plugin bs (fuzz_setup none) n st (none, prng) =
        .ok (stf, (none, prng), List.replicate n (BlockRecord.mk [] bs)) := by
  intro n
  induction n with
  | zero =>
    intro st prng
    exact ⟨st, rfl⟩
  | succ n ih =>
    intro st prng
    obtain ⟨st', hst'⟩ := hproc st []
    obtain ⟨stf, hrest⟩ := ih st' prng
    refine ⟨stf, ?_⟩
    simp only [ProcessingTest.run, fuzz_setup, exceptBind_ok, hst', hrest,
      List.replicate_succ, sortEvents, List.insertionSort]

/-- A driver run whose closure state still holds the taken events: the first
block's queue is exactly those events (all at time 0, so the sort leaves them
in place), and the remaining blocks run with empty queues. -/
theorem run_fuzz_first {σ : Type} (plugin : Plugin σ) (bs : Nat)
    (hproc : ∀ s q, ∃ s', plugin.process s q = .ok s')
    (n : Nat) (st : σ) (prng : Prng) (evs : List Event)
    (htimes : ∀ ev ∈ evs, Event.time ev = 0) :
    ∃ stf, ProcessingTest.run plugin bs (fuzz_setup none) (n + 1) st (some evs, prng) =
      .ok (stf, (none, prng),
        BlockRecord.mk evs bs :: List.replicate n (BlockRecord.mk [] bs)) := by
  have hsort : sortEvents evs = evs := sortEvents_of_times_zero evs htimes
  obtain ⟨st', hst'⟩ := hproc st evs
  obtain ⟨stf, hrest⟩ := run_fuzz_none plugin bs hproc n st' prng
  refine ⟨stf, ?_⟩
  simp only [ProcessingTest.run, fuzz_setup, exceptBind_ok, hsort, hst', hrest]

/-- The permutation loop of the fuzz test: with a plugin whose `process`
never errors, `n` permutations produce `n` traces, each consisting of one
block carrying the permutation's `ParamValue` events (one per parameter, at
time 0, in the core namespace) followed by `FUZZ_RUNS_PER_PERMUTATION - 1`
blocks with empty queues. -/
theorem fuzz_permutation_loop_char {σ : Type} (plugin : Plugin σ)
    (param_infos : List (Nat × ParamInfo)) (inputs outputs : List (List FChan))
    (b : OutOfPlaceAudioBuffers)
    (hb : ProcessingTest.new_out_of_place inputs outputs = .ok b)
    (hproc : ∀ s q, ∃ s', plugin.process s q = .ok s') :
    ∀ (n : Nat) (prng : Prng) (st : σ), ∃ stf prngf trace,
      fuzz_permutation_loop plugin param_infos inputs outputs none n prng st =
        .ok (stf, prngf, trace)
      ∧ trace.length = n
      ∧ ∀ perm ∈ trace, ∃ evs,
          perm = BlockRecord.mk evs b.lenFn ::
            List.replicate (FUZZ_RUNS_PER_PERMUTATION - 1) (BlockRecord.mk [] b.lenFn)
          ∧ List.Forall₂ (fun ev (p : Nat × ParamInfo) => ∃ e, ev = Event.ParamValue e ∧
              e.param_id = p.1 ∧ e.header.time = 0 ∧
              e.header.space_id = CLAP_CORE_EVENT_SPACE_ID) evs param_infos := by
  intro n
  induction n with
  | zero =>
    intro prng st
    refine ⟨st, prng, [], rfl, rfl, ?_⟩
    intro perm h
    cases h
  | succ n ih =>
    intro prng st
    obtain ⟨st1, hrun⟩ := run_fuzz_first plugin b.lenFn hproc
      (FUZZ_RUNS_PER_PERMUTATION - 1) st
      (ParamFuzzer.randomize_params_at param_infos prng 0).2
      (ParamFuzzer.randomize_params_at param_infos prng 0).1
      (randomize_params_at_times param_infos prng 0)
    have hrun5 : ProcessingTest.run plugin b.lenFn (fuzz_setup none)
        FUZZ_RUNS_PER_PERMUTATION st
        (some (ParamFuzzer.randomize_params_at param_infos prng 0).1,
          (ParamFuzzer.randomize_params_at param_infos prng 0).2) =
        .ok (st1, (none, (ParamFuzzer.randomize_params_at param_infos prng 0).2),
          BlockRecord.mk (ParamFuzzer.randomize_params_at param_infos prng 0).1 b.lenFn ::
            List.replicate (FUZZ_RUNS_PER_PERMUTATION - 1) (BlockRecord.mk [] b.lenFn)) :=
      hrun
    obtain ⟨stf, prngf, trace, hloop, hlen, hperms⟩ :=
      ih (ParamFuzzer.randomize_params_at param_infos prng 0).2 st1
    refine ⟨stf, prngf,
      (BlockRecord.mk (ParamFuzzer.randomize_params_at param_infos prng 0).1 b.lenFn ::
        List.replicate (FUZZ_RUNS_PER_PERMUTATION - 1) (BlockRecord.mk [] b.lenFn)) :: trace,
      ?_, ?_, ?_⟩
    · simp only [fuzz_permutation_loop, hb, exceptBind_ok, hrun5, hloop]
    · simp only [List.length_cons, hlen]
    · intro perm hp
      rcases List.mem_cons.mp hp with rfl | hp
      · exact ⟨_, rfl, randomize_params_at_forall param_infos prng 0⟩
      · exact hperms perm hp

/-- **C7.** `test_random_fuzz_params` runs exactly
`FUZZ_NUM_PERMUTATIONS = 50` parameter permutations; in each permutation the
randomized `ParamValue` events (one per parameter, all at time 0) land in the
input event queue of the first block only, the remaining queues being empty;
each permutation runs `FUZZ_RUNS_PER_PERMUTATION = 5` blocks of
`BUFFER_SIZE = 512` samples; and when no processing call errors and the
thread-safety check passes, the test returns `Success`. (The plugin here has
audio ports with at least one channel and no note ports; input sample
contents — the randomized audio — are opaque to the control flow and not
modelled.) -/
theorem c7_random_fuzz_params_runs {σ : Type} (library : PluginLibrary σ)
    (host : HostModel) (prng : Prng)
    (note_fill : Option (Prng → List Event → Nat → Except String (List Event × Prng)))
    (plugin : Plugin σ) (params : ParamsExt σ) (apcfg : AudioPortConfig)
    (param_infos : List (Nat × ParamInfo))
    (h_create : library.create_plugin = .ok plugin)
    (h_init : plugin.init = .ok ())
    (h_ap : plugin.audio_ports = some (AudioPortsExt.mk (.ok apcfg)))
    (h_np : plugin.note_ports = none)
    (h_params : plugin.params = some params)
    (h_info : params.info = .ok param_infos)
    (h_ch : ((apcfg.create_buffers BUFFER_SIZE).1 ++
      (apcfg.create_buffers BUFFER_SIZE).2).flatten ≠ [])
    (hproc : ∀ s q, ∃ s', plugin.process s q = .ok s')
    (h_thread : host.thread_safety_check = .ok ()) :
    ∃ trace, test_random_fuzz_params library host prng note_fill =
        .ok (TestStatus.Success none, trace)
      ∧ trace.length = FUZZ_NUM_PERMUTATIONS
      ∧ ∀ perm ∈ trace, ∃ evs,
          perm = BlockRecord.mk evs BUFFER_SIZE ::
            List.replicate (FUZZ_RUNS_PER_PERMUTATION - 1) (BlockRecord.mk [] BUFFER_SIZE)
          ∧ List.Forall₂ (fun ev (p : Nat × ParamInfo) => ∃ e, ev = Event.ParamValue e ∧
              e.param_id = p.1 ∧ e.header.time = 0 ∧
              e.header.space_id = CLAP_CORE_EVENT_SPACE_ID) evs param_infos := by
  obtain ⟨b, hb, -, hbs⟩ := new_out_of_place_create_buffers apcfg BUFFER_SIZE
  have hlen : b.lenFn = BUFFER_SIZE := hbs h_ch
  obtain ⟨stf, prngf, trace, hloop, hlen50, hperms⟩ :=
    fuzz_permutation_loop_char plugin param_infos
      (apcfg.create_buffers BUFFER_SIZE).1 (apcfg.create_buffers BUFFER_SIZE).2
      b hb hproc FUZZ_NUM_PERMUTATIONS prng plugin.initial_state
  refine ⟨trace, ?_, hlen50, ?_⟩
  · simp only [test_random_fuzz_params, h_create, exceptBind_ok, h_init, h_params,
      h_ap, h_np, h_info, Option.getD, hloop, h_thread]
  · intro perm hp
    obtain ⟨evs, hperm, hfa⟩ := hperms perm hp
    rw [hlen] at hperm
    exact ⟨evs, hperm, hfa⟩

/-- Witness for C7: a one-parameter plugin with one input and one output
channel whose `process` always succeeds; the fuzz test succeeds and its trace
has exactly 50 permutations. -/
theorem c7_random_fuzz_params_runs_witness :
    ∃ trace, test_random_fuzz_params
        (PluginLibrary.mk (σ := Unit)
          (.ok
            { init := .ok ()
              params := some
                { info := .ok [(0, ParamInfo.mk "Gain" 0 10)]
                  value_to_text := fun _ _ => .ok none
                  text_to_value := fun _ _ => .ok none
                  get := fun _ _ => .ok 0 }
              audio_ports := some (AudioPortsExt.mk (.ok (AudioPortConfig.mk [1] [1])))
              note_ports := none
              initial_state := ()
              process := fun s _ => .ok s }))
        (HostModel.mk (.ok ())) [] none =
      .ok (TestStatus.Success none, trace) ∧ trace.length = FUZZ_NUM_PERMUTATIONS := by
  obtain ⟨trace, hres, hlen, -⟩ := c7_random_fuzz_params_runs
    (PluginLibrary.mk (σ := Unit)
      (.ok
        { init := .ok ()
          params := some
            { info := .ok [(0, ParamInfo.mk "Gain" 0 10)]
              value_to_text := fun _ _ => .ok none
              text_to_value := fun _ _ => .ok none
              get := fun _ _ => .ok 0 }
          audio_ports := some (AudioPortsExt.mk (.ok (AudioPortConfig.mk [1] [1])))
          note_ports := none
          initial_state := ()
          process := fun s _ => .ok s }))
    (HostModel.mk (.ok ())) [] none
    { init := .ok ()
      params := some
        { info := .ok [(0, ParamInfo.mk "Gain" 0 10)]
          value_to_text := fun _ _ => .ok none
          text_to_value := fun _ _ => .ok none
          get := fun _ _ => .ok 0 }
      audio_ports := some (AudioPortsExt.mk (.ok (AudioPortConfig.mk [1] [1])))
      note_ports := none
      initial_state := ()
      process := fun s _ => .ok s }
    { info := .ok [(0, ParamInfo.mk "Gain" 0 10)]
      value_to_text := fun _ _ => .ok none
      text_to_value := fun _ _ => .ok none
      get := fun _ _ => .ok 0 }
    (AudioPortConfig.mk [1] [1])
    [(0, ParamInfo.mk "Gain" 0 10)]
    rfl rfl rfl rfl rfl rfl (by decide) (fun s _ => ⟨s, rfl⟩) rfl
  exact ⟨trace, hres, hlen⟩

/-! ## The CLI dispatch (C8) -/

/-- **C8.** The claim that the `validate` subcommand runs the test matrix
and exits with code 0/1/2 fails on the code: the `Validate` arm of `main` is
`todo!("Implement the validator")`, so any `validate` invocation panics
before running anything, for any list of paths and flags. -/
theorem c8_validate_is_unimplemented :
    main_dispatch (Commands.Validate ["plugin.clap"] false false) =
      MainOutcome.panicked "not yet implemented: Implement the validator"
    ∧ ∀ (paths : List String) (in_process json : Bool),
        main_dispatch (Commands.Validate paths in_process json) =
          MainOutcome.panicked "not yet implemented: Implement the validator" :=
  ⟨rfl, fun _ _ _ => rfl⟩
